import Mathlib

/-!
# Shallow embedding of the shadowsocks-rust relay core

Definitions are translated from the Rust sources:
* `src/shadowsocks/src/relay/tcprelay/server.rs` (`handle_client`, `run`)
* `src/crates/shadowsocks/src/manager/datagram.rs` (`ManagerSocketAddr`, `ManagerDatagram`)
* `src/crates/shadowsocks/src/dns_resolver/trust_dns_resolver.rs` (`create_resolver`, `resolve`)

Asynchronous I/O effects (socket reads/writes, connects, draining) are
represented by explicit environments supplying each step's result and by
event traces recording what the code performed on the underlying sockets.
`io::Result` becomes `Except IoError`.
-/

namespace SS

/-- A subset of Rust's `std::io::ErrorKind` used by the embedded code. -/
inductive ErrorKind where
  | invalidInput
  | other
  | timedOut
  | addrInUse
  | notFound
  deriving DecidableEq, Repr

/-- An `std::io::Error`: a kind plus its message. -/
structure IoError where
  kind : ErrorKind
  msg : String
  deriving DecidableEq, Repr

/-- `std::net::IpAddr`: an IPv4 or IPv6 address. -/
inductive IpAddr where
  | v4 (a b c d : Nat)
  | v6 (segs : List Nat)
  deriving DecidableEq, Repr

/-- `std::net::SocketAddr`: an IP address and a port. -/
structure SockAddr where
  ip : IpAddr
  port : Nat
  deriving DecidableEq, Repr

/-- `relay::socks5::Address`: the decoded target address (tagged union of a
socket address and a domain name + port). -/
inductive Address where
  | socketAddress (sa : SockAddr)
  | domainNameAddress (dname : String) (port : Nat)
  deriving DecidableEq, Repr

/-! ## LookupThen

Modelled from the spec: the `lookup_then!` macro is declared outside the
provided sources (only its call sites in `server.rs` and `datagram.rs` are
under `src/`).  Per §4.3 of the spec: resolve the host to an ordered address
list; for each address in order attempt the per-address operation `F`; on the
first success return the pair (address, result); on failure record the error
and continue; if all addresses fail return the **last** error.

`lookupThenTrace` additionally returns the list of addresses on which `F`
was invoked, in order, so that short-circuiting is observable. -/

/-- Modelled from the spec: iterate `F` over the resolved addresses in order,
returning the first success or the last error, together with the trace of
addresses actually attempted.  `none` means the address list was empty. -/
def lookupThenTrace {β : Type} (F : SockAddr → Except IoError β) :
    List SockAddr → Option (Except IoError (SockAddr × β)) × List SockAddr
  | [] => (none, [])
  | a :: rest =>
    match F a with
    | .ok b => (some (.ok (a, b)), [a])
    | .error e =>
      match lookupThenTrace F rest with
      | (none, _) => (some (.error e), [a])
      | (some r, tr) => (some r, a :: tr)

/-- The error produced when the resolver returns an empty address list
(the macro's `expect` on an empty iteration, modelled as an error). -/
def emptyResolveError : IoError := ⟨.other, "resolved empty address"⟩

/-- Modelled from the spec: `lookup_then!` — propagate a resolution error,
otherwise run `lookupThenTrace` over the resolved list. -/
def lookupThen {β : Type} (resolved : Except IoError (List SockAddr))
    (F : SockAddr → Except IoError β) : Except IoError (SockAddr × β) :=
  match resolved with
  | .error e => .error e
  | .ok addrs =>
    match (lookupThenTrace F addrs).1 with
    | some r => r
    | none => .error emptyResolveError

/-- Addresses on which `F` is invoked during `lookup_then!` on a successful
resolution. -/
def lookupThenAttempts {β : Type} (addrs : List SockAddr)
    (F : SockAddr → Except IoError β) : List SockAddr :=
  (lookupThenTrace F addrs).2

/-! ## handle_client (`src/shadowsocks/src/relay/tcprelay/server.rs`)

The per-connection handler.  Socket effects are abstracted: the environment
supplies the result of each asynchronous step, and the handler returns its
`io::Result<()>` along with the trace of effects it performed on sockets. -/

/-- Observable socket effects of `handle_client`.
* `drainUntilClose` — `stream.into_inner().into_inner().into_inner()`
  followed by `ignore_until_end(&mut tcp)`: strip the cipher and monitor
  layers down to the raw TCP socket and read-and-discard bytes until the
  client closes it (the socket itself is not closed by the server).
* `connectAttempt sa` — `try_timeout(connect_tcp_stream(&sa, &bind_addr), timeout)`.
* `relayData` — the bidirectional copy phase (`copy_s2p` / `copy_p2s`),
  the only phase that writes data back to the client peer. -/
inductive Event where
  | drainUntilClose
  | connectAttempt (sa : SockAddr)
  | relayData
  deriving DecidableEq, Repr

/-- The environment of one `handle_client` call: the results the
asynchronous sub-operations would produce. -/
structure HandleEnv where
  /-- Result of `Address::read_from(&mut stream).await`. -/
  decodeResult : Except IoError Address
  /-- `context.check_outbound_blocked(&remote_addr).await`. -/
  outboundBlocked : Address → Bool
  /-- `context.config().local_addr` and its `bind_addr` resolution:
  `none` when no local address is configured, otherwise the result of
  `addr.bind_addr(&context).await`. -/
  localBind : Option (Except IoError SockAddr)
  /-- Result of `try_timeout(connect_tcp_stream(&addr, &bind_addr), timeout)`
  at a given resolved address (the established stream is abstracted to `Unit`). -/
  connectResult : SockAddr → Except IoError Unit
  /-- Result of resolving a domain name (the resolver inside `lookup_then!`). -/
  resolveResult : String → Nat → Except IoError (List SockAddr)

/-- `handle_client`: decode the target address (on failure drain the raw
socket, then return the decode error); check the outbound ACL (blocked →
`Ok(())` with nothing sent); compute the optional local bind address;
connect directly for socket-address targets or via `lookup_then!` for
domain targets; then relay.  Returns the `io::Result<()>` and the socket
effect trace. -/
def handle_client (env : HandleEnv) : Except IoError Unit × List Event :=
  match env.decodeResult with
  | .error err =>
    -- Hold the TCP connection until it closes by itself for preventing
    -- active probing, then return the decode error.
    (.error err, [.drainUntilClose])
  | .ok remote_addr =>
    if env.outboundBlocked remote_addr then
      (.ok (), [])
    else
      match (match env.localBind with
             | none => Except.ok none
             | some r => r.map some : Except IoError (Option SockAddr)) with
      | .error e => (.error e, [])
      | .ok _bind_addr =>
        match remote_addr with
        | .socketAddress saddr =>
          match env.connectResult saddr with
          | .ok _ => (.ok (), [.connectAttempt saddr, .relayData])
          | .error err => (.error err, [.connectAttempt saddr])
        | .domainNameAddress dname port =>
          match env.resolveResult dname port with
          | .error err => (.error err, [])
          | .ok addrs =>
            match lookupThenTrace env.connectResult addrs with
            | (some (.ok _), tried) =>
              (.ok (), tried.map .connectAttempt ++ [.relayData])
            | (some (.error err), tried) =>
              (.error err, tried.map .connectAttempt)
            | (none, _) => (.error emptyResolveError, [])

/-! ## run (`src/shadowsocks/src/relay/tcprelay/server.rs`)

`run` binds one listener per configured server instance (propagating any
bind failure), then drives all accept loops concurrently through a
`FuturesUnordered`; each accept loop is an infinite `loop` and never yields
a value, so if the combined future ever produces `Some(())` the server
returns the "exited unexpectly" error; the `None` branch is `unreachable!`
(a crash, modelled as a distinguished error — in particular not `Ok`). -/

/-- Sequential binding of the per-instance listeners: the first failure is
propagated by `?`. -/
def bindAll : List (Except IoError Unit) → Except IoError Unit
  | [] => .ok ()
  | .ok _ :: rest => bindAll rest
  | .error e :: _ => .error e

/-- The error `run` constructs when one of the accept loops terminates. -/
def serverExitedError : IoError := ⟨.other, "server exited unexpectly"⟩

/-- The `unreachable!` arm of `run`, a crash modelled as an error. -/
def unreachableError : IoError := ⟨.other, "internal error: entered unreachable code"⟩

/-- `run`: propagate listener-bind failures; otherwise inspect the first
completion of the set of accept loops (`vec_fut.into_future().await.0`):
`Some(())` → the "server exited unexpectly" error, `None` → `unreachable!`. -/
def run (binds : List (Except IoError Unit)) (firstLoopExit : Option Unit) :
    Except IoError Unit :=
  match bindAll binds with
  | .error e => .error e
  | .ok _ =>
    match firstLoopExit with
    | some _ => .error serverExitedError
    | none => .error unreachableError

/-! ## ManagerDatagram (`src/crates/shadowsocks/src/manager/datagram.rs`) -/

/-- `tokio::net::unix::SocketAddr`: a Unix datagram endpoint address, either
unnamed (not bound to any path) or bound to a filesystem path. -/
inductive UnixSocketAddr where
  | unnamed
  | pathname (path : String)
  deriving DecidableEq, Repr

/-- `tokio::net::unix::SocketAddr::is_unnamed`. -/
def UnixSocketAddr.is_unnamed : UnixSocketAddr → Bool
  | .unnamed => true
  | .pathname _ => false

/-- `tokio::net::unix::SocketAddr::as_pathname`. -/
def UnixSocketAddr.as_pathname : UnixSocketAddr → Option String
  | .unnamed => none
  | .pathname p => some p

/-- `ManagerSocketAddr`: peer address tagged by endpoint kind. -/
inductive ManagerSocketAddr where
  | socketAddr (sa : SockAddr)
  | unixSocketAddr (ua : UnixSocketAddr)
  deriving DecidableEq, Repr

/-- `ManagerSocketAddr::is_unnamed`: only valid for `UnixSocketAddr`. -/
def ManagerSocketAddr.is_unnamed : ManagerSocketAddr → Bool
  | .socketAddr _ => false
  | .unixSocketAddr s => s.is_unnamed

/-- `ManagerAddr` (`config::ManagerAddr`): a control-plane endpoint. -/
inductive ManagerAddr where
  | socketAddr (sa : SockAddr)
  | domainName (dname : String) (port : Nat)
  | unixSocketAddr (path : String)
  deriving DecidableEq, Repr

/-- The kind of the underlying socket held by a `ManagerDatagram`
(the wrapped tokio socket objects are abstracted away; transmissions are
recorded in the event trace instead). -/
inductive ManagerDatagram where
  | udpDatagram
  | unixDatagram
  deriving DecidableEq, Repr

/-- A transmission performed on an underlying socket by `send_to`. -/
inductive SendEvent where
  | udpSendTo (buf : List Nat) (sa : SockAddr)
  | unixSendTo (buf : List Nat) (path : String)
  deriving DecidableEq, Repr

/-- `ManagerDatagram::send_to`: sends `buf` to `target` when the socket kind
matches the target kind; cross-kind combinations, and unnamed Unix targets,
fail with `ErrorKind::InvalidInput` without transmitting.  Returns the
`io::Result<usize>` and the transmissions performed on the underlying
socket (a successful datagram send reports the full buffer length). -/
def ManagerDatagram.send_to (d : ManagerDatagram) (buf : List Nat)
    (target : ManagerSocketAddr) : Except IoError Nat × List SendEvent :=
  match d with
  | .udpDatagram =>
    match target with
    | .socketAddr saddr => (.ok buf.length, [.udpSendTo buf saddr])
    | .unixSocketAddr _ =>
      (.error ⟨.invalidInput, "udp datagram requires IP address target"⟩, [])
  | .unixDatagram =>
    match target with
    | .unixSocketAddr saddr =>
      match saddr.as_pathname with
      | some paddr => (.ok buf.length, [.unixSendTo buf paddr])
      | none =>
        (.error ⟨.invalidInput, "target address must not be unnamed"⟩, [])
    | .socketAddr _ =>
      (.error ⟨.invalidInput, "unix datagram requires path address target"⟩, [])

/-- `std::fs::remove_file` on the filesystem modelled as the list of
existing paths (the `let _ =` at the call site ignores a missing file). -/
def removeFile (path : String) (fs : List String) : List String :=
  fs.filter (fun q => q ≠ path)

/-- `tokio::net::UnixDatagram::bind`: fails with `AddrInUse` when a
filesystem entry already exists at `path`, otherwise creates the socket
file. -/
def unixDatagramBind (path : String) (fs : List String) :
    Except IoError (List String) :=
  if path ∈ fs then .error ⟨.addrInUse, "Address already in use"⟩
  else .ok (path :: fs)

/-- Environment for `ManagerDatagram::bind`: results of UDP socket creation
and of domain resolution. -/
structure BindEnv where
  /-- Result of `create_udp_socket(&saddr).await` (socket abstracted to `Unit`). -/
  createUdp : SockAddr → Except IoError Unit
  /-- Result of resolving a domain name inside `lookup_then!`. -/
  resolveResult : String → Nat → Except IoError (List SockAddr)

/-- `ManagerDatagram::bind`: UDP for socket addresses (directly or via
`lookup_then!` for domain names); for a filesystem path, remove any
pre-existing entry at that path first, then `UnixDatagram::bind`.
Returns the datagram and the updated filesystem. -/
def ManagerDatagram.bind (env : BindEnv) (fs : List String)
    (bind_addr : ManagerAddr) : Except IoError (ManagerDatagram × List String) :=
  match bind_addr with
  | .socketAddr saddr =>
    match env.createUdp saddr with
    | .ok _ => .ok (.udpDatagram, fs)
    | .error e => .error e
  | .domainName dname port =>
    match lookupThen (env.resolveResult dname port) env.createUdp with
    | .ok _ => .ok (.udpDatagram, fs)
    | .error e => .error e
  | .unixSocketAddr path =>
    -- Remove it first incase it is already exists
    match unixDatagramBind path (removeFile path fs) with
    | .ok fs2 => .ok (.unixDatagram, fs2)
    | .error e => .error e

/-! ## DNS resolver (`src/crates/shadowsocks/src/dns_resolver/trust_dns_resolver.rs`) -/

/-- `trust_dns_resolver::config::LookupIpStrategy`. -/
inductive LookupIpStrategy where
  | ipv4thenIpv6
  | ipv6thenIpv4
  | ipv4AndIpv6
  deriving DecidableEq, Repr

/-- `trust_dns_resolver::config::ResolverOpts` restricted to the field the
code touches; `ResolverOpts::default()` uses the resolver's default
strategy. -/
structure ResolverOpts where
  ip_strategy : LookupIpStrategy
  deriving DecidableEq, Repr

/-- `ResolverOpts::default()`. -/
def ResolverOpts.default : ResolverOpts := ⟨.ipv4thenIpv6⟩

/-- `trust_dns_resolver::config::ResolverConfig`: either an explicit or
system-read configuration (abstracted by an identifier) or
`ResolverConfig::google()`, the well-known public recursive resolver. -/
inductive ResolverConfig where
  | conf (id : Nat)
  | google
  deriving DecidableEq, Repr

/-- The constructed `TokioAsyncResolver`, identified by the configuration
and options it was built from. -/
structure TokioAsyncResolver where
  config : ResolverConfig
  opts : ResolverOpts
  deriving DecidableEq, Repr

/-- The compile-time platform family distinguished by the
`#[cfg(any(unix, windows))]` attributes in `create_resolver`. -/
inductive Platform where
  | unixOrWindows
  | other
  deriving DecidableEq, Repr

/-- `create_resolver`: with an explicit `dns` configuration, build the
resolver from it (with `ip_strategy` overridden when `ipv6_first`); in
system-config mode on unix/windows, read the system configuration —
propagating the read error on failure — and override only `ip_strategy`;
on other platforms use `ResolverConfig::google()`.  The
`read_system_conf()` result is supplied by the environment. -/
def create_resolver (platform : Platform)
    (readSystemConf : Except IoError (ResolverConfig × ResolverOpts))
    (dns : Option ResolverConfig) (ipv6_first : Bool) :
    Except IoError TokioAsyncResolver :=
  let resolver_opts : ResolverOpts :=
    if ipv6_first then { ResolverOpts.default with ip_strategy := .ipv6thenIpv4 }
    else ResolverOpts.default
  match dns with
  | some conf => .ok ⟨conf, resolver_opts⟩
  | none =>
    match platform with
    | .unixOrWindows =>
      match readSystemConf with
      | .error err => .error err
      | .ok (config, opts) =>
        let opts :=
          if ipv6_first then { opts with ip_strategy := .ipv6thenIpv4 } else opts
        .ok ⟨config, opts⟩
    | .other => .ok ⟨.google, resolver_opts⟩

/-- Modelled from the spec: `tokio_dns_resolver::resolve` (the platform
fallback, not under `src/`) — §4.1: results are wrapped into the uniform
address iterator, and resolution errors are reported with the form
`"dns resolve <host>:<port> error: <underlying>"`. -/
def tokio_resolve (platformLookup : Except String (List SockAddr))
    (addr : String) (port : Nat) : Except IoError (List SockAddr) :=
  match platformLookup with
  | .ok v => .ok v
  | .error e =>
    .error ⟨.other,
      "dns resolve " ++ addr ++ ":" ++ toString port ++ " error: " ++ e⟩

/-- `resolve`: with a configured trust-dns resolver, `lookup_ip` and pair
every returned IP with `port`, wrapping a lookup failure into an
`ErrorKind::Other` error with the "dns resolve <host>:<port> error:" text;
without one, fall back to `tokio_resolve`.  The environment supplies the
optional resolver's `lookup_ip` result and the platform lookup result. -/
def resolve (dnsResolver : Option (String → Except String (List IpAddr)))
    (platformLookup : Except String (List SockAddr))
    (addr : String) (port : Nat) : Except IoError (List SockAddr) :=
  match dnsResolver with
  | some lookup_ip =>
    match lookup_ip addr with
    | .ok lookup_result => .ok (lookup_result.map (fun ip => ⟨ip, port⟩))
    | .error err =>
      .error ⟨.other,
        "dns resolve " ++ addr ++ ":" ++ toString port ++ " error: " ++ err⟩
  | none => tokio_resolve platformLookup addr port

/-! ## Helper lemmas on `lookupThenTrace` -/

/-- If `F` fails on every element of `as` and on `alast`, iterating over
`as ++ [alast]` attempts every address and returns the error of the
**last** one. -/
theorem lookupThenTrace_append_last_fail {β : Type} (F : SockAddr → Except IoError β)
    (alast : SockAddr) (elast : IoError) (hlast : F alast = Except.error elast) :
    ∀ as : List SockAddr, (∀ a ∈ as, ∃ e, F a = Except.error e) →
      lookupThenTrace F (as ++ [alast]) =
        (some (Except.error elast), as ++ [alast]) := by
  intro as
  induction as with
  | nil =>
    intro _
    simp [lookupThenTrace, hlast]
  | cons b bs ih =>
    intro hfail
    obtain ⟨e0, he0⟩ := hfail b (List.mem_cons_self b bs)
    have htail := ih (fun a ha => hfail a (List.mem_cons_of_mem b ha))
    simp only [List.cons_append, lookupThenTrace, he0, List.append_eq, htail]

/-- If `F` fails on every element of `pre` and succeeds on `a`, iterating
over `pre ++ a :: post` attempts exactly `pre ++ [a]` and returns
`(a, F a)`; no address of `post` is attempted. -/
theorem lookupThenTrace_prefix_fail {β : Type} (F : SockAddr → Except IoError β)
    (a : SockAddr) (v : β) (post : List SockAddr) (ha : F a = Except.ok v) :
    ∀ pre : List SockAddr, (∀ b ∈ pre, ∃ e, F b = Except.error e) →
      lookupThenTrace F (pre ++ a :: post) =
        (some (Except.ok (a, v)), pre ++ [a]) := by
  intro pre
  induction pre with
  | nil =>
    intro _
    simp [lookupThenTrace, ha]
  | cons b bs ih =>
    intro hfail
    obtain ⟨e0, he0⟩ := hfail b (List.mem_cons_self b bs)
    have htail := ih (fun x hx => hfail x (List.mem_cons_of_mem b hx))
    simp only [List.cons_append, lookupThenTrace, he0, List.append_eq, htail]

/-! ## Claim theorems -/

/-- C1: for every client connection whose target-address decode fails
(`Address::read_from` returns an error), `handle_client` does not close the
raw TCP socket: its only socket effect is `drainUntilClose` — stripping the
cipher and monitor layers down to the raw socket and reading-and-discarding
until the client closes — after which it returns the decode error to its
caller (no connect attempt, no relay data is ever sent). -/
theorem handle_client_decode_error_antiprobe (env : HandleEnv) (err : IoError)
    (h : env.decodeResult = Except.error err) :
    handle_client env = (Except.error err, [Event.drainUntilClose]) := by
  unfold handle_client
  rw [h]

theorem handle_client_decode_error_antiprobe_witness :
    handle_client
        ⟨Except.error ⟨ErrorKind.other, "invalid address type"⟩,
          fun _ => false, none, fun _ => Except.ok (), fun _ _ => Except.ok []⟩ =
      (Except.error ⟨ErrorKind.other, "invalid address type"⟩,
        [Event.drainUntilClose]) :=
  handle_client_decode_error_antiprobe _ _ rfl

/-- C2 (spec-modelled `lookup_then!`): for a resolved address list
`as ++ [alast]` (n ≥ 1) on which the per-address operation `F` fails
everywhere, `lookupThen` attempts `F` on each address in resolver order
(the attempt trace is the whole list) and returns the **last** address's
error, not the first. -/
theorem lookupThen_all_fail_returns_last_error {β : Type}
    (F : SockAddr → Except IoError β) (as : List SockAddr)
    (alast : SockAddr) (elast : IoError)
    (hfail : ∀ a ∈ as, ∃ e, F a = Except.error e)
    (hlast : F alast = Except.error elast) :
    lookupThen (Except.ok (as ++ [alast])) F = Except.error elast ∧
      lookupThenAttempts (as ++ [alast]) F = as ++ [alast] := by
  have htr := lookupThenTrace_append_last_fail F alast elast hlast as hfail
  constructor
  · simp [lookupThen, htr]
  · simp [lookupThenAttempts, htr]

theorem lookupThen_all_fail_returns_last_error_witness :
    lookupThen (β := Unit)
        (Except.ok [⟨IpAddr.v4 10 0 0 1, 80⟩, ⟨IpAddr.v4 10 0 0 2, 80⟩])
        (fun sa => Except.error ⟨ErrorKind.other, toString sa.port ++ toString sa.port⟩) =
      Except.error ⟨ErrorKind.other, toString (80 : Nat) ++ toString (80 : Nat)⟩ ∧
      lookupThenAttempts (β := Unit)
        [⟨IpAddr.v4 10 0 0 1, 80⟩, ⟨IpAddr.v4 10 0 0 2, 80⟩]
        (fun sa => Except.error ⟨ErrorKind.other, toString sa.port ++ toString sa.port⟩) =
      [⟨IpAddr.v4 10 0 0 1, 80⟩, ⟨IpAddr.v4 10 0 0 2, 80⟩] :=
  lookupThen_all_fail_returns_last_error _ [⟨IpAddr.v4 10 0 0 1, 80⟩] _ _
    (fun a _ => ⟨⟨ErrorKind.other, toString a.port ++ toString a.port⟩, rfl⟩) rfl

/-- C3: for every decoded target address on which the Context's outbound
ACL predicate (`check_outbound_blocked`) returns true, `handle_client`
returns success (`Ok(())`) with an empty socket-effect trace: no outbound
connect is attempted and no data is sent to the client peer. -/
theorem handle_client_acl_blocked (env : HandleEnv) (a : Address)
    (hdec : env.decodeResult = Except.ok a)
    (hblk : env.outboundBlocked a = true) :
    handle_client env = (Except.ok (), []) := by
  unfold handle_client
  rw [hdec]
  simp [hblk]

theorem handle_client_acl_blocked_witness :
    handle_client
        ⟨Except.ok (Address.socketAddress ⟨IpAddr.v4 127 0 0 1, 80⟩),
          fun _ => true, none, fun _ => Except.ok (), fun _ _ => Except.ok []⟩ =
      (Except.ok (), []) :=
  handle_client_acl_blocked _ (Address.socketAddress ⟨IpAddr.v4 127 0 0 1, 80⟩) rfl rfl

/-- C4: for every buffer, `ManagerDatagram::send_to` on a UDP-kind socket
with a filesystem-path-kind (Unix) target, and on a filesystem-kind socket
with a socket-address-kind target, returns an error of kind `InvalidInput`
and transmits nothing on the underlying socket (empty transmission trace). -/
theorem send_to_cross_kind_invalid_input (buf : List Nat)
    (ua : UnixSocketAddr) (sa : SockAddr) :
    ManagerDatagram.send_to .udpDatagram buf (.unixSocketAddr ua) =
      (Except.error ⟨ErrorKind.invalidInput, "udp datagram requires IP address target"⟩, []) ∧
    ManagerDatagram.send_to .unixDatagram buf (.socketAddr sa) =
      (Except.error ⟨ErrorKind.invalidInput, "unix datagram requires path address target"⟩, []) :=
  ⟨rfl, rfl⟩

/-- C5 (spec-modelled `lookup_then!`): if the per-address operation `F`
fails on each address of `pre` and succeeds with `v` on `a`, then
`lookupThen` on the resolved list `pre ++ a :: post` returns `(a, v)` and
the attempt trace is exactly `pre ++ [a]` — `F` is never invoked on any
address after `a` (no position of `post` is attempted). -/
theorem lookupThen_short_circuit {β : Type} (F : SockAddr → Except IoError β)
    (pre post : List SockAddr) (a : SockAddr) (v : β)
    (hpre : ∀ b ∈ pre, ∃ e, F b = Except.error e)
    (ha : F a = Except.ok v) :
    lookupThen (Except.ok (pre ++ a :: post)) F = Except.ok (a, v) ∧
      lookupThenAttempts (pre ++ a :: post) F = pre ++ [a] := by
  have htr := lookupThenTrace_prefix_fail F a v post ha pre hpre
  constructor
  · simp [lookupThen, htr]
  · simp [lookupThenAttempts, htr]

theorem lookupThen_short_circuit_witness :
    lookupThen (β := Nat)
        (Except.ok [⟨IpAddr.v4 10 0 0 1, 443⟩, ⟨IpAddr.v4 10 0 0 2, 443⟩,
          ⟨IpAddr.v4 10 0 0 3, 443⟩])
        (fun sa => if sa = ⟨IpAddr.v4 10 0 0 1, 443⟩ then
            Except.error ⟨ErrorKind.timedOut, "connect timeout"⟩ else Except.ok 7) =
      Except.ok (⟨IpAddr.v4 10 0 0 2, 443⟩, 7) ∧
      lookupThenAttempts (β := Nat)
        [⟨IpAddr.v4 10 0 0 1, 443⟩, ⟨IpAddr.v4 10 0 0 2, 443⟩,
          ⟨IpAddr.v4 10 0 0 3, 443⟩]
        (fun sa => if sa = ⟨IpAddr.v4 10 0 0 1, 443⟩ then
            Except.error ⟨ErrorKind.timedOut, "connect timeout"⟩ else Except.ok 7) =
      [⟨IpAddr.v4 10 0 0 1, 443⟩, ⟨IpAddr.v4 10 0 0 2, 443⟩] :=
  lookupThen_short_circuit _ [⟨IpAddr.v4 10 0 0 1, 443⟩] [⟨IpAddr.v4 10 0 0 3, 443⟩]
    ⟨IpAddr.v4 10 0 0 2, 443⟩ 7
    (by intro b hb; refine ⟨⟨ErrorKind.timedOut, "connect timeout"⟩, ?_⟩
        simp at hb; simp [hb])
    (by simp)

/-- C6 counterexample: on a unix/windows platform in system-config mode
(`dns = none`), when reading the system stub-resolver configuration fails,
`create_resolver` returns that read error — it fails instead of defaulting
to the well-known public recursive resolver. -/
theorem create_resolver_unreadable_system_conf_fails :
    create_resolver .unixOrWindows
        (Except.error ⟨ErrorKind.notFound, "resolv.conf not found"⟩) none false =
      Except.error ⟨ErrorKind.notFound, "resolv.conf not found"⟩ ∧
    create_resolver .unixOrWindows
        (Except.error ⟨ErrorKind.notFound, "resolv.conf not found"⟩) none false ≠
      Except.ok ⟨ResolverConfig.google, ResolverOpts.default⟩ :=
  ⟨rfl, fun hc => Except.noConfusion hc⟩

/-- C6 (amended): in system-config mode, only on platforms without system
stub-resolver support (neither unix nor windows) does `create_resolver`
default to the well-known public recursive resolver
(`ResolverConfig::google()`); on unix/windows, an unreadable system
configuration makes it return the read error. -/
theorem create_resolver_google_default
    (readSystemConf : Except IoError (ResolverConfig × ResolverOpts))
    (b : Bool) (e : IoError) :
    create_resolver .other readSystemConf none b =
      Except.ok ⟨ResolverConfig.google,
        if b then ⟨LookupIpStrategy.ipv6thenIpv4⟩ else ResolverOpts.default⟩ ∧
    create_resolver .unixOrWindows (Except.error e) none b = Except.error e := by
  constructor
  · cases b <;> rfl
  · rfl

/-- C7: `ManagerDatagram::bind` on a filesystem-path-kind `ManagerAddr`
first unlinks any pre-existing filesystem entry at that path
(`fs::remove_file`) and then binds, so binding at a path where a file
already exists succeeds, yielding a Unix datagram and a filesystem in which
the old entry was replaced by the socket file. -/
theorem bind_unix_path_rebind (env : BindEnv) (fs : List String) (path : String)
    (_h : path ∈ fs) :
    ManagerDatagram.bind env fs (.unixSocketAddr path) =
      Except.ok (.unixDatagram, path :: removeFile path fs) := by
  have hnot : path ∉ removeFile path fs := by
    simp [removeFile]
  simp [ManagerDatagram.bind, unixDatagramBind, hnot]

theorem bind_unix_path_rebind_witness :
    ("mgr.sock" ∈ ["mgr.sock", "other"]) ∧
    ManagerDatagram.bind ⟨fun _ => Except.ok (), fun _ _ => Except.ok []⟩
        ["mgr.sock", "other"] (.unixSocketAddr "mgr.sock") =
      Except.ok (.unixDatagram, "mgr.sock" :: removeFile "mgr.sock" ["mgr.sock", "other"]) :=
  ⟨by decide,
    bind_unix_path_rebind ⟨fun _ => Except.ok (), fun _ _ => Except.ok []⟩
      ["mgr.sock", "other"] "mgr.sock" (by decide)⟩

/-- C8: `run` never returns `Ok`; and whenever the listeners bound
successfully and any one of the concurrently running per-instance accept
loops terminates (the `FuturesUnordered` yields `Some(())`), `run` returns
the "server exited unexpectly" error. -/
theorem run_exits_with_error :
    (∀ (binds : List (Except IoError Unit)) (first : Option Unit) (u : Unit),
      run binds first ≠ Except.ok u) ∧
    (∀ binds : List (Except IoError Unit), bindAll binds = Except.ok () →
      run binds (some ()) = Except.error serverExitedError) := by
  constructor
  · intro binds first u h
    unfold run at h
    cases hb : bindAll binds with
    | error e => rw [hb] at h; exact Except.noConfusion h
    | ok u' =>
      rw [hb] at h
      cases first <;> exact Except.noConfusion h
  · intro binds hb
    simp [run, hb]

theorem run_exits_with_error_witness :
    run [] (some ()) = Except.error serverExitedError ∧
    run [] (some ()) ≠ Except.ok () :=
  ⟨run_exits_with_error.2 [] rfl, run_exits_with_error.1 [] (some ()) ()⟩

/-- C9: whenever `resolve` fails — whichever backend (the configured
trust-dns resolver or the platform fallback) produced the failure — the
returned error's message has the form
`"dns resolve <host>:<port> error: <underlying>"`, naming the queried host
and port. -/
theorem resolve_failure_message
    (dnsResolver : Option (String → Except String (List IpAddr)))
    (platformLookup : Except String (List SockAddr))
    (addr : String) (port : Nat) (e : IoError)
    (h : resolve dnsResolver platformLookup addr port = Except.error e) :
    ∃ underlying,
      e.msg = "dns resolve " ++ addr ++ ":" ++ toString port ++ " error: " ++ underlying := by
  cases dnsResolver with
  | none =>
    unfold resolve tokio_resolve at h
    cases platformLookup with
    | ok v => exact Except.noConfusion h
    | error u =>
      refine ⟨u, ?_⟩
      injection h with h
      rw [← h]
  | some lookup_ip =>
    simp only [resolve] at h
    cases hl : lookup_ip addr with
    | ok v => rw [hl] at h; exact Except.noConfusion h
    | error u =>
      rw [hl] at h
      refine ⟨u, ?_⟩
      injection h with h
      rw [← h]

theorem resolve_failure_message_witness :
    ∃ underlying,
      (IoError.mk ErrorKind.other
          ("dns resolve " ++ "example.com" ++ ":" ++ toString (80 : Nat) ++
            " error: " ++ "no record")).msg =
        "dns resolve " ++ "example.com" ++ ":" ++ toString (80 : Nat) ++
          " error: " ++ underlying :=
  resolve_failure_message (some fun _ => Except.error "no record") (Except.ok [])
    "example.com" 80 _ rfl

/-- C10: `ManagerDatagram::send_to` on a filesystem-kind (Unix) socket with
a filesystem-kind target that is unnamed (no bound path) returns an error
of kind `InvalidInput` and transmits nothing; a named (path-bearing) target
is sent to on the underlying socket. -/
theorem send_to_unnamed_unix_target (buf : List Nat) (p : String) :
    ManagerDatagram.send_to .unixDatagram buf
        (.unixSocketAddr UnixSocketAddr.unnamed) =
      (Except.error ⟨ErrorKind.invalidInput, "target address must not be unnamed"⟩, []) ∧
    ManagerDatagram.send_to .unixDatagram buf
        (.unixSocketAddr (UnixSocketAddr.pathname p)) =
      (Except.ok buf.length, [SendEvent.unixSendTo buf p]) :=
  ⟨rfl, rfl⟩

end SS




